import Mathlib

/-!
Verification of the `nekro-plugin-weather` plugin (`src/__init__.py`).

The plugin queries the Amap (高德) geocoding and weather HTTP endpoints and
renders the JSON responses as human-readable Chinese text.  We give a shallow
embedding of its data model and operations:

* Python dicts coming from the provider become structures with `Option String`
  fields (a missing key is `none`; `dict.get(k, d)` becomes `Option.getD`).
* The two HTTP calls are abstracted by an `Oracle`: a pair of functions from
  the request parameter to `Option` of the decoded JSON response, where `none`
  models any transport failure (timeout, connection error, non-2xx status or a
  raised exception) — in the source every such failure is caught and turned
  into a `None` return value.
* `async` functions become plain total functions of the oracle; the logging
  calls have no observable effect on the returned strings and are dropped.
-/

/-- One entry of the geocode response list `geo_data["geocodes"]`.
Only the `adcode` key is read (line 82), with default `""` when absent. -/
structure Geocode where
  adcode : Option String
deriving DecidableEq

/-- Decoded JSON of `GET /geocode/geo` (lines 76–82): the `status` field and
the `geocodes` list. -/
structure GeoResponse where
  status : String
  geocodes : List Geocode
deriving DecidableEq

/-- One live-conditions record from `weather_data["lives"]`; every field the
formatter reads (lines 129–134) is optional. -/
structure Live where
  temperature : Option String
  humidity : Option String
  windpower : Option String
  winddirection : Option String
  weather : Option String
  visibility : Option String
  reporttime : Option String
deriving DecidableEq

/-- One forecast-day record from `forecast_data["casts"]`; fields read at
lines 146–151, each defaulting to `""` when absent. -/
structure Cast where
  date : Option String
  week : Option String
  dayweather : Option String
  nightweather : Option String
  daytemp : Option String
  nighttemp : Option String
deriving DecidableEq

/-- One forecast group from `weather_data["forecasts"]`; only its `casts`
list is read (line 142, default `[]`). -/
structure Forecast where
  casts : List Cast
deriving DecidableEq

/-- Decoded JSON of `GET /weather/weatherInfo` (lines 91–99). -/
structure WeatherResponse where
  status : String
  lives : List Live
  forecasts : List Forecast
deriving DecidableEq

/-- The dict built by `_get_weather_from_amap` on success (lines 96–100):
`{"city": city, "lives": ..., "forecasts": ...}`.  `city` is optional because
`_format_weather_result` reads it with `data.get("city", "未知")` (line 120). -/
structure WeatherData where
  city : Option String
  lives : List Live
  forecasts : List Forecast
deriving DecidableEq

/-- The network, abstracted: `geo` maps the `address` parameter to the decoded
geocode response, `weather` maps the `city` (adcode) parameter to the decoded
weather response; `none` is a transport failure / caught exception. -/
structure Oracle where
  geo : String → Option GeoResponse
  weather : String → Option WeatherResponse

/-- Python `str.strip()`: remove whitespace from both ends (used at lines
175–181 and 209–217). -/
def strip (s : String) : String :=
  ⟨((s.data.dropWhile Char.isWhitespace).reverse.dropWhile Char.isWhitespace).reverse⟩

/-- `geo_data["geocodes"][0].get("adcode", "")` (line 82); the caller has
already checked the list is non-empty. -/
def adcodeOf (geo : GeoResponse) : String :=
  ((geo.geocodes.headD { adcode := none }).adcode).getD ""

/-- `_get_weather_from_amap` (lines 58–107): geocode lookup, then weather
lookup, each guarded by `status == "1"` and non-emptiness of the result list
(Python truthiness of a list is non-emptiness).  Any transport failure or
exception yields `none`. -/
def get_weather_from_amap (o : Oracle) (city : String) : Option WeatherData :=
  match o.geo city with
  | none => none
  | some geo =>
    if geo.status ≠ "1" ∨ geo.geocodes = [] then none
    else
      match o.weather (adcodeOf geo) with
      | none => none
      | some w =>
        if w.status ≠ "1" ∨ w.lives = [] then none
        else some { city := some city, lives := w.lives, forecasts := w.forecasts }

/-- `data.get("city", "未知")` (line 120). -/
def cityD (data : WeatherData) : String :=
  data.city.getD "未知"

/-- The seven lines built at lines 127–135, in source order.  Note the wind
line (line 131): `winddirection` defaults to `""`, not `"N/A"`. -/
def liveLines (city : String) (live : Live) : List String :=
  ["📍 城市: " ++ city,
   "🌡️ 温度: " ++ live.temperature.getD "N/A" ++ "°C",
   "💧 湿度: " ++ live.humidity.getD "N/A" ++ "%",
   "🌬️ 风力: " ++ live.windpower.getD "N/A" ++ " " ++ live.winddirection.getD "" ++ "级",
   "☁️ 天气: " ++ live.weather.getD "N/A",
   "👁️ 能见度: " ++ live.visibility.getD "N/A" ++ "米",
   "📊 报告时间: " ++ live.reporttime.getD "N/A"]

/-- One rendered forecast line (lines 146–155). -/
def castLine (cast : Cast) : String :=
  "  " ++ cast.date.getD "" ++ " (周" ++ cast.week.getD "" ++ "): ☀️" ++
    cast.dayweather.getD "" ++ " " ++ cast.daytemp.getD "" ++ "°C / 🌙" ++
    cast.nightweather.getD "" ++ " " ++ cast.nighttemp.getD "" ++ "°C"

/-- The forecast section header appended at line 144 (it starts with a
newline in the source). -/
def forecastHeader : String := "\n📅 天气预报:"

/-- The lines appended when `include_forecast` is set (lines 138–155):
only `forecasts[0]` is consulted, and only `casts[:3]` are rendered. -/
def forecastLines (data : WeatherData) : List String :=
  match data.forecasts with
  | [] => []
  | fd :: _ =>
    if fd.casts.isEmpty then []
    else forecastHeader :: (fd.casts.take 3).map castLine

/-- `"\n".join(result)` (line 157): Python `str.join` semantics. -/
def joinLines : List String → String
  | [] => ""
  | [a] => a
  | a :: b :: rest => a ++ "\n" ++ joinLines (b :: rest)

/-- `_format_weather_result` (lines 110–157). -/
def format_weather_result (data : WeatherData) (include_forecast : Bool) : String :=
  match data.lives with
  | [] => "无法获取 " ++ cityD data ++ " 的天气信息"
  | live :: _ =>
    joinLines (liveLines (cityD data) live ++
      (if include_forecast then forecastLines data else []))

/-- The clamp at line 212: `days = min(max(days, 1), 7)`. -/
def clampDays (days : Int) : Int :=
  min (max days 1) 7

/-- `query_weather` (lines 165–190).  The Python guard
`not city or not city.strip()` is the disjunction below (an empty string and a
whitespace-only string are the falsy cases). -/
def query_weather (o : Oracle) (city : String) : String :=
  if city = "" ∨ strip city = "" then "请提供有效的城市名称"
  else
    match get_weather_from_amap o (strip city) with
    | none => "❌ 无法获取 " ++ city ++ " 的天气信息\n可能的原因:\n- 城市名称不正确\n- API Key 无效\n- 网络连接问题"
    | some weather_data => format_weather_result weather_data false

/-- `query_weather_forecast` (lines 198–226).  The clamped `days` value is
bound but, as in the source, used only for logging — it never influences the
returned string. -/
def query_weather_forecast (o : Oracle) (city : String) (days : Int) : String :=
  if city = "" ∨ strip city = "" then "请提供有效的城市名称"
  else
    let _days := clampDays days
    match get_weather_from_amap o (strip city) with
    | none => "❌ 无法获取 " ++ city ++ " 的天气信息"
    | some weather_data => format_weather_result weather_data true

/-- `s` contains `pat` as a substring. -/
def strContains (s pat : String) : Prop :=
  ∃ p q, s = p ++ pat ++ q

/-- An oracle on which every network call fails. -/
def emptyOracle : Oracle :=
  { geo := fun _ => none, weather := fun _ => none }

theorem str_append_assoc (a b c : String) : a ++ b ++ c = a ++ (b ++ c) :=
  String.ext (by simp)

theorem str_empty_append (s : String) : "" ++ s = s :=
  String.ext (by simp)

theorem str_append_empty (s : String) : s ++ "" = s :=
  String.ext (by simp)

theorem str_glue (a b c : String) (h : a ++ b = c) (x : String) :
    c ++ x = a ++ (b ++ x) := by
  rw [← h, str_append_assoc]

theorem strContains_appendl {a : String} {pat : String} (b : String)
    (h : strContains a pat) : strContains (a ++ b) pat := by
  obtain ⟨p, q, rfl⟩ := h
  exact ⟨p, q ++ b, str_append_assoc (p ++ pat) q b⟩

theorem strContains_appendr {b : String} {pat : String} (a : String)
    (h : strContains b pat) : strContains (a ++ b) pat := by
  obtain ⟨p, q, rfl⟩ := h
  refine ⟨a ++ p, q, ?_⟩
  rw [str_append_assoc, str_append_assoc, str_append_assoc]

theorem joinLines_contains {pat : String} :
    ∀ (lines : List String) (l : String), l ∈ lines → strContains l pat →
      strContains (joinLines lines) pat
  | [], l, h, _ => absurd h (List.not_mem_nil l)
  | [a], l, h, hc => by
      rcases List.mem_singleton.mp h with rfl
      simpa [joinLines] using hc
  | a :: b :: rest, l, h, hc => by
      show strContains (a ++ "\n" ++ joinLines (b :: rest)) pat
      rcases List.mem_cons.mp h with rfl | h2
      · exact strContains_appendl _ (strContains_appendl _ hc)
      · exact strContains_appendr _ (joinLines_contains (b :: rest) l h2 hc)

/-- Inversion principle for `_get_weather_from_amap`: it succeeds exactly when
both calls return, both status fields are `"1"`, both result lists are
non-empty, and then the returned dict is built from the weather response. -/
theorem get_weather_some_iff (o : Oracle) (city : String) (data : WeatherData) :
    get_weather_from_amap o city = some data ↔
    ∃ geo w, o.geo city = some geo ∧ geo.status = "1" ∧ geo.geocodes ≠ [] ∧
      o.weather (adcodeOf geo) = some w ∧ w.status = "1" ∧ w.lives ≠ [] ∧
      data = ⟨some city, w.lives, w.forecasts⟩ := by
  constructor
  · intro hdata
    unfold get_weather_from_amap at hdata
    split at hdata
    · exact absurd hdata (by simp)
    next geo hgeo =>
      split at hdata
      · exact absurd hdata (by simp)
      next h1 =>
        split at hdata
        · exact absurd hdata (by simp)
        next w hw =>
          split at hdata
          · exact absurd hdata (by simp)
          next h2 =>
            push_neg at h1 h2
            refine ⟨geo, w, hgeo, h1.1, h1.2, hw, h2.1, h2.2, ?_⟩
            exact (Option.some_inj.mp hdata).symm
  · rintro ⟨geo, w, hgeo, hs1, hg, hw, hs2, hl, rfl⟩
    simp [get_weather_from_amap, hgeo, hw, hs1, hg, hs2, hl]

/-- A live-conditions record with every field absent. -/
def liveNone : Live := ⟨none, none, none, none, none, none, none⟩

/-- The sample live record of spec §8 property 6. -/
def liveSample : Live :=
  ⟨some "25", some "50", some "3", some "北", some "晴", some "10",
   some "2026-01-29 12:00:00"⟩

/-- A sample forecast-day record, parameterised by its date. -/
def castSample (d : String) : Cast :=
  ⟨some d, some "一", some "晴", some "阴", some "20", some "10"⟩

/-- An oracle that always answers both calls successfully, with one live
record and four forecast days. -/
def okOracle : Oracle :=
  { geo := fun _ => some ⟨"1", [⟨some "110000"⟩]⟩,
    weather := fun _ => some ⟨"1", [liveSample],
      [⟨[castSample "d1", castSample "d2", castSample "d3", castSample "d4"]⟩]⟩ }

/-- The weather dict produced by `get_weather_from_amap okOracle "北京"`. -/
def okData : WeatherData :=
  ⟨some "北京", [liveSample],
   [⟨[castSample "d1", castSample "d2", castSample "d3", castSample "d4"]⟩]⟩

/-- A report whose only live record has every field absent. -/
def dataWindNone : WeatherData := ⟨some "测试城市", [liveNone], []⟩

/-- Like `dataWindNone` but with `winddirection` explicitly `"N/A"`. -/
def dataWindNA : WeatherData :=
  ⟨some "测试城市", [{ liveNone with winddirection := some "N/A" }], []⟩

/-- C1: `query_weather_forecast` clamps `days` into [1,7] (0 → 1, 10 → 7,
5 → 5), yet the returned string is independent of `days`, and on success the
rendered forecast section holds at most 3 forecast lines. -/
theorem C1_days_clamped_but_unused :
    (clampDays 0 = 1 ∧ clampDays 10 = 7 ∧ clampDays 5 = 5)
    ∧ (∀ (o : Oracle) (city : String) (d1 d2 : Int),
        query_weather_forecast o city d1 = query_weather_forecast o city d2)
    ∧ (∀ (o : Oracle) (city : String) (days : Int) (data : WeatherData),
        ¬(city = "" ∨ strip city = "") →
        get_weather_from_amap o (strip city) = some data →
        ∃ live lrest, data.lives = live :: lrest ∧
          query_weather_forecast o city days =
            joinLines (liveLines (cityD data) live ++ forecastLines data) ∧
          (forecastLines data = [] ∨
            ∃ cls, forecastLines data = forecastHeader :: cls ∧ cls.length ≤ 3)) := by
  refine ⟨by decide, fun o city d1 d2 => rfl, ?_⟩
  intro o city days data hv hf
  obtain ⟨geo, w, -, -, -, -, -, hl, hdata⟩ := (get_weather_some_iff o (strip city) data).mp hf
  obtain ⟨live, lrest, hlives⟩ : ∃ live lrest, data.lives = live :: lrest := by
    rcases hld : data.lives with - | ⟨live, lrest⟩
    · rw [hdata] at hld; exact absurd hld hl
    · exact ⟨live, lrest, rfl⟩
  refine ⟨live, lrest, hlives, ?_, ?_⟩
  · unfold query_weather_forecast
    rw [if_neg hv, hf]
    unfold format_weather_result
    simp only [hlives, if_true]
  · unfold forecastLines
    rcases hfc : data.forecasts with - | ⟨fd, frest⟩
    · exact Or.inl rfl
    · by_cases hc : fd.casts.isEmpty
      · simp [hc]
      · refine Or.inr ⟨(fd.casts.take 3).map castLine, by simp [hc], ?_⟩
        simp only [List.length_map, List.length_take]
        omega

/-- C1 witness: concrete application at city `"北京"` and the all-success
oracle, for days 0 and 10. -/
theorem C1_days_clamped_but_unused_witness :
    (¬(("北京" : String) = "" ∨ strip "北京" = "")) ∧
    (get_weather_from_amap okOracle (strip "北京") = some okData) ∧
    (∃ live lrest, okData.lives = live :: lrest ∧
      query_weather_forecast okOracle "北京" 0 =
        joinLines (liveLines (cityD okData) live ++ forecastLines okData) ∧
      (forecastLines okData = [] ∨
        ∃ cls, forecastLines okData = forecastHeader :: cls ∧ cls.length ≤ 3)) ∧
    query_weather_forecast okOracle "北京" 0 = query_weather_forecast okOracle "北京" 10 :=
  ⟨by decide, rfl,
   C1_days_clamped_but_unused.2.2 okOracle "北京" 0 okData (by decide) rfl,
   C1_days_clamped_but_unused.2.1 okOracle "北京" 0 10⟩

/-- C2: an empty or whitespace-only city makes both entry points return the
validation message `请提供有效的城市名称`; the result does not depend on the
oracle at all (the quantification over `o` is the no-network-call property). -/
theorem C2_blank_city_rejected :
    ∀ city : String, (city = "" ∨ strip city = "") →
    ∀ (o : Oracle) (days : Int),
      query_weather o city = "请提供有效的城市名称" ∧
      query_weather_forecast o city days = "请提供有效的城市名称" := by
  intro city h o days
  constructor
  · unfold query_weather
    rw [if_pos h]
  · unfold query_weather_forecast
    rw [if_pos h]

/-- C2 witness: the whitespace-only city `"  "` with the failing oracle. -/
theorem C2_blank_city_rejected_witness :
    (("  " : String) = "" ∨ strip "  " = "") ∧
    query_weather emptyOracle "  " = "请提供有效的城市名称" ∧
    query_weather_forecast emptyOracle "  " 3 = "请提供有效的城市名称" :=
  ⟨Or.inr (by decide), C2_blank_city_rejected "  " (Or.inr (by decide)) emptyOracle 3⟩

/-- C3: for a valid city whose lookup yields no data, `query_weather` returns
a string containing the city name and the failure indicator `无法获取`
(being a total Lean function, it cannot raise). -/
theorem C3_lookup_failure_text :
    ∀ (o : Oracle) (city : String), ¬(city = "" ∨ strip city = "") →
    get_weather_from_amap o (strip city) = none →
    strContains (query_weather o city) city ∧
    strContains (query_weather o city) "无法获取" := by
  intro o city hv hf
  have hq : query_weather o city =
      "❌ 无法获取 " ++ city ++ " 的天气信息\n可能的原因:\n- 城市名称不正确\n- API Key 无效\n- 网络连接问题" := by
    unfold query_weather
    rw [if_neg hv, hf]
  constructor
  · exact ⟨"❌ 无法获取 ", " 的天气信息\n可能的原因:\n- 城市名称不正确\n- API Key 无效\n- 网络连接问题", hq⟩
  · refine ⟨"❌ ", " " ++ city ++ " 的天气信息\n可能的原因:\n- 城市名称不正确\n- API Key 无效\n- 网络连接问题", ?_⟩
    rw [hq]
    simp only [str_append_assoc]
    exact str_glue "❌ 无法获取" " " "❌ 无法获取 " rfl _

/-- C3 witness: city `"北京"` with the all-failing oracle. -/
theorem C3_lookup_failure_text_witness :
    (¬(("北京" : String) = "" ∨ strip "北京" = "")) ∧
    (get_weather_from_amap emptyOracle (strip "北京") = none) ∧
    strContains (query_weather emptyOracle "北京") "北京" ∧
    strContains (query_weather emptyOracle "北京") "无法获取" :=
  ⟨by decide, rfl, C3_lookup_failure_text emptyOracle "北京" (by decide) rfl⟩

/-- C4: the fetch succeeds only when the provider status is `"1"` and the
live list is non-empty — every returned dict has a non-empty `lives` — and an
empty live list makes the whole lookup fail even if forecasts are present. -/
theorem C4_success_requires_lives :
    ∀ (o : Oracle) (city : String),
    (∀ data : WeatherData, get_weather_from_amap o city = some data →
      data.lives ≠ [] ∧
      ∃ geo w, o.geo city = some geo ∧ geo.status = "1" ∧ geo.geocodes ≠ [] ∧
        o.weather (adcodeOf geo) = some w ∧ w.status = "1" ∧ w.lives ≠ [] ∧
        data = ⟨some city, w.lives, w.forecasts⟩)
    ∧ (∀ geo w, o.geo city = some geo → o.weather (adcodeOf geo) = some w →
        w.lives = [] → get_weather_from_amap o city = none) := by
  intro o city
  constructor
  · intro data hdata
    obtain ⟨geo, w, hgeo, hs1, hg, hw, hs2, hl, hd⟩ :=
      (get_weather_some_iff o city data).mp hdata
    refine ⟨?_, geo, w, hgeo, hs1, hg, hw, hs2, hl, hd⟩
    rw [hd]
    exact hl
  · intro geo w hgeo hw hlives
    cases hres : get_weather_from_amap o city with
    | none => rfl
    | some data =>
      obtain ⟨geo', w', hgeo', -, -, hw', -, hl', -⟩ :=
        (get_weather_some_iff o city data).mp hres
      rw [hgeo] at hgeo'
      cases Option.some_inj.mp hgeo'
      rw [hw] at hw'
      cases Option.some_inj.mp hw'
      exact absurd hlives hl'

/-- C4 witness: the all-success oracle at city `"北京"`. -/
theorem C4_success_requires_lives_witness :
    get_weather_from_amap okOracle "北京" = some okData ∧
    (okData.lives ≠ [] ∧
      ∃ geo w, okOracle.geo "北京" = some geo ∧ geo.status = "1" ∧ geo.geocodes ≠ [] ∧
        okOracle.weather (adcodeOf geo) = some w ∧ w.status = "1" ∧ w.lives ≠ [] ∧
        okData = ⟨some "北京", w.lives, w.forecasts⟩) :=
  ⟨rfl, (C4_success_requires_lives okOracle "北京").1 okData rfl⟩

/-- C5: a report with an empty live list is rendered as a string containing
`无法获取` and the report's city name, whatever the forecast flag and
content. -/
theorem C5_empty_lives_fallback :
    ∀ (data : WeatherData) (fc : Bool), data.lives = [] →
    strContains (format_weather_result data fc) "无法获取" ∧
    strContains (format_weather_result data fc) (cityD data) := by
  intro data fc h
  have hq : format_weather_result data fc = "无法获取 " ++ cityD data ++ " 的天气信息" := by
    unfold format_weather_result
    rw [h]
  constructor
  · refine ⟨"", " " ++ cityD data ++ " 的天气信息", ?_⟩
    rw [hq]
    simp only [str_append_assoc, str_empty_append]
    exact str_glue "无法获取" " " "无法获取 " rfl _
  · exact ⟨"无法获取 ", " 的天气信息", hq⟩

/-- C5 witness: a live-less report with forecast content and both flags. -/
theorem C5_empty_lives_fallback_witness :
    ((⟨some "测试", [], [⟨[castSample "d1"]⟩]⟩ : WeatherData).lives = []) ∧
    strContains (format_weather_result ⟨some "测试", [], [⟨[castSample "d1"]⟩]⟩ true) "无法获取" ∧
    strContains (format_weather_result ⟨some "测试", [], [⟨[castSample "d1"]⟩]⟩ true)
      (cityD ⟨some "测试", [], [⟨[castSample "d1"]⟩]⟩) :=
  ⟨rfl, C5_empty_lives_fallback ⟨some "测试", [], [⟨[castSample "d1"]⟩]⟩ true rfl⟩

/-- C6: with forecast enabled and at least 4 forecast days in the first
group, exactly the first 3 entries are rendered, in provider order, after the
section header. -/
theorem C6_three_forecast_lines :
    ∀ (data : WeatherData) (live : Live) (lrest : List Live) (fd : Forecast)
      (frest : List Forecast) (c1 c2 c3 c4 : Cast) (crest : List Cast),
    data.lives = live :: lrest → data.forecasts = fd :: frest →
    fd.casts = c1 :: c2 :: c3 :: c4 :: crest →
    format_weather_result data true =
      joinLines (liveLines (cityD data) live ++
        [forecastHeader, castLine c1, castLine c2, castLine c3]) := by
  intro data live lrest fd frest c1 c2 c3 c4 crest h1 h2 h3
  unfold format_weather_result forecastLines
  simp [h1, h2, h3]

/-- C6 witness: `okData` has one live record and 4 forecast days. -/
theorem C6_three_forecast_lines_witness :
    okData.lives = [liveSample] ∧
    okData.forecasts = [⟨[castSample "d1", castSample "d2", castSample "d3", castSample "d4"]⟩] ∧
    format_weather_result okData true =
      joinLines (liveLines (cityD okData) liveSample ++
        [forecastHeader, castLine (castSample "d1"), castLine (castSample "d2"),
         castLine (castSample "d3")]) :=
  ⟨rfl, rfl,
   C6_three_forecast_lines okData liveSample [] _ []
     (castSample "d1") (castSample "d2") (castSample "d3") (castSample "d4") []
     rfl rfl rfl⟩

/-- C7 counterexample: the claim says every absent field — `winddirection`
included — renders as `"N/A"` in its place; were that so, the report whose
live record has every field absent would render identically to the same
report with `winddirection := "N/A"`.  It does not: the absent direction
renders as the empty string (`风力: N/A 级`, not `风力: N/A N/A级`). -/
theorem C7_winddirection_counterexample :
    format_weather_result dataWindNone false =
      "📍 城市: 测试城市\n🌡️ 温度: N/A°C\n💧 湿度: N/A%\n🌬️ 风力: N/A 级\n☁️ 天气: N/A\n👁️ 能见度: N/A米\n📊 报告时间: N/A" ∧
    format_weather_result dataWindNone false ≠ format_weather_result dataWindNA false := by
  constructor
  · rfl
  · decide

/-- C7 (amended): an absent `temperature`, `humidity`, `windpower`,
`weather`, `visibility` or `reporttime` is rendered exactly as if the
provider had sent `"N/A"`, whereas an absent `winddirection` is rendered
exactly as if the provider had sent the empty string. -/
theorem C7_missing_fields_default :
    ∀ (data : WeatherData) (live : Live) (lrest : List Live) (fc : Bool),
    data.lives = live :: lrest →
    (live.temperature = none → format_weather_result data fc =
      format_weather_result ⟨data.city, { live with temperature := some "N/A" } :: lrest, data.forecasts⟩ fc) ∧
    (live.humidity = none → format_weather_result data fc =
      format_weather_result ⟨data.city, { live with humidity := some "N/A" } :: lrest, data.forecasts⟩ fc) ∧
    (live.windpower = none → format_weather_result data fc =
      format_weather_result ⟨data.city, { live with windpower := some "N/A" } :: lrest, data.forecasts⟩ fc) ∧
    (live.weather = none → format_weather_result data fc =
      format_weather_result ⟨data.city, { live with weather := some "N/A" } :: lrest, data.forecasts⟩ fc) ∧
    (live.visibility = none → format_weather_result data fc =
      format_weather_result ⟨data.city, { live with visibility := some "N/A" } :: lrest, data.forecasts⟩ fc) ∧
    (live.reporttime = none → format_weather_result data fc =
      format_weather_result ⟨data.city, { live with reporttime := some "N/A" } :: lrest, data.forecasts⟩ fc) ∧
    (live.winddirection = none → format_weather_result data fc =
      format_weather_result ⟨data.city, { live with winddirection := some "" } :: lrest, data.forecasts⟩ fc) := by
  rintro ⟨c, ls, fs⟩ live lrest fc h
  cases h
  refine ⟨?_, ?_, ?_, ?_, ?_, ?_, ?_⟩ <;>
    · intro hfield
      unfold format_weather_result
      simp [liveLines, cityD, forecastLines, hfield]

/-- C7 witness: the all-absent live record, for the `temperature` and
`winddirection` conjuncts. -/
theorem C7_missing_fields_default_witness :
    dataWindNone.lives = [liveNone] ∧ liveNone.temperature = none ∧
    liveNone.winddirection = none ∧
    format_weather_result dataWindNone false =
      format_weather_result
        ⟨dataWindNone.city, { liveNone with temperature := some "N/A" } :: [], dataWindNone.forecasts⟩ false ∧
    format_weather_result dataWindNone false =
      format_weather_result
        ⟨dataWindNone.city, { liveNone with winddirection := some "" } :: [], dataWindNone.forecasts⟩ false :=
  ⟨rfl, rfl, rfl,
   (C7_missing_fields_default dataWindNone liveNone [] false rfl).1 rfl,
   (C7_missing_fields_default dataWindNone liveNone [] false rfl).2.2.2.2.2.2 rfl⟩

/-- C8: for a report with live data the rendered lines start, in order, with
the city, temperature, humidity, wind, weather, visibility and report-time
lines. -/
theorem C8_line_order :
    ∀ (data : WeatherData) (live : Live) (lrest : List Live) (fc : Bool),
    data.lives = live :: lrest →
    ∃ tail : List String,
      format_weather_result data fc =
        joinLines (("📍 城市: " ++ cityD data) ::
          ("🌡️ 温度: " ++ live.temperature.getD "N/A" ++ "°C") ::
          ("💧 湿度: " ++ live.humidity.getD "N/A" ++ "%") ::
          ("🌬️ 风力: " ++ live.windpower.getD "N/A" ++ " " ++ live.winddirection.getD "" ++ "级") ::
          ("☁️ 天气: " ++ live.weather.getD "N/A") ::
          ("👁️ 能见度: " ++ live.visibility.getD "N/A" ++ "米") ::
          ("📊 报告时间: " ++ live.reporttime.getD "N/A") :: tail) := by
  intro data live lrest fc h
  refine ⟨if fc then forecastLines data else [], ?_⟩
  unfold format_weather_result
  simp [h, liveLines]

/-- C8 witness: the sample live record with forecast disabled. -/
theorem C8_line_order_witness :
    okData.lives = [liveSample] ∧
    ∃ tail : List String,
      format_weather_result okData false =
        joinLines (("📍 城市: " ++ cityD okData) ::
          ("🌡️ 温度: " ++ liveSample.temperature.getD "N/A" ++ "°C") ::
          ("💧 湿度: " ++ liveSample.humidity.getD "N/A" ++ "%") ::
          ("🌬️ 风力: " ++ liveSample.windpower.getD "N/A" ++ " " ++ liveSample.winddirection.getD "" ++ "级") ::
          ("☁️ 天气: " ++ liveSample.weather.getD "N/A") ::
          ("👁️ 能见度: " ++ liveSample.visibility.getD "N/A" ++ "米") ::
          ("📊 报告时间: " ++ liveSample.reporttime.getD "N/A") :: tail) :=
  ⟨rfl, C8_line_order okData liveSample [] false rfl⟩

/-- C9: formatting is deterministic — equal inputs give equal strings (the
embedding is a pure function of its two arguments). -/
theorem C9_format_deterministic :
    ∀ (d1 d2 : WeatherData) (f1 f2 : Bool), d1 = d2 → f1 = f2 →
    format_weather_result d1 f1 = format_weather_result d2 f2 := by
  intro d1 d2 f1 f2 h1 h2
  rw [h1, h2]

/-- C9 witness: two calls on `okData` with forecast enabled. -/
theorem C9_format_deterministic_witness :
    okData = okData ∧
    format_weather_result okData true = format_weather_result okData true :=
  ⟨rfl, C9_format_deterministic okData okData true true rfl rfl⟩

/-- C10: the forecast section reads only the first forecast group, and when
there is no group or its cast list is empty the forecast-enabled output
equals the forecast-disabled output. -/
theorem C10_forecast_first_group_only :
    (∀ (c : Option String) (ls : List Live) (fd : Forecast) (fr fr' : List Forecast),
      format_weather_result ⟨c, ls, fd :: fr⟩ true =
        format_weather_result ⟨c, ls, fd :: fr'⟩ true)
    ∧ (∀ data : WeatherData,
        (data.forecasts = [] ∨ ∃ fd fr, data.forecasts = fd :: fr ∧ fd.casts = []) →
        format_weather_result data true = format_weather_result data false) := by
  constructor
  · intro c ls fd fr fr'
    unfold format_weather_result forecastLines cityD
    cases ls <;> rfl
  · rintro ⟨c, ls, fs⟩ h
    rcases h with h | ⟨fd, fr, h, hc⟩ <;>
      · cases h
        unfold format_weather_result forecastLines
        cases ls <;> simp_all

/-- C10 witness: a report with one empty forecast group. -/
theorem C10_forecast_first_group_only_witness :
    ((⟨some "测试", [liveSample], [⟨[]⟩]⟩ : WeatherData).forecasts = [] ∨
      ∃ fd fr, (⟨some "测试", [liveSample], [⟨[]⟩]⟩ : WeatherData).forecasts = fd :: fr ∧ fd.casts = []) ∧
    format_weather_result ⟨some "测试", [liveSample], [⟨[]⟩]⟩ true =
      format_weather_result ⟨some "测试", [liveSample], [⟨[]⟩]⟩ false :=
  ⟨Or.inr ⟨⟨[]⟩, [], rfl, rfl⟩,
   C10_forecast_first_group_only.2 ⟨some "测试", [liveSample], [⟨[]⟩]⟩
     (Or.inr ⟨⟨[]⟩, [], rfl, rfl⟩)⟩
